import Mathlib

/- Shallow embedding of the CMU LandMOS AI backend (src/backend/main.py):
model-availability matching, the Ollama query helpers, the station-data
summarizer, the station-data passthrough endpoint and the chart-analysis
endpoint pipeline, together with theorems settling the specification
claims about them. HTTP transport is modelled by passing each handler the
outcome of its outbound calls; machine floats are modelled by exact
rationals (the claims under verification are structural, not about binary
rounding). -/

namespace LandMOS

/- Python string primitives used by the backend, modelled over character
lists so that they evaluate by kernel reduction. -/

/-- Model of the Python substring test `needle in hay` (contiguous
substring), via the decidable infix relation on the character lists. -/
def strHasSub (needle hay : String) : Bool :=
  decide (List.IsInfix needle.toList hay.toList)

/-- Model of Python `s.startswith(p)`. -/
def strStartsWith (s p : String) : Bool :=
  decide (List.IsPrefix p.toList s.toList)

/-- Model of Python character slicing `s[:n]`. -/
def strTake (s : String) (n : Nat) : String := String.mk (s.toList.take n)

/-- Python whitespace, as stripped by `str.strip()`. -/
def isPySpace (c : Char) : Bool :=
  c == ' ' || c == '\t' || c == '\n' || c == '\r' || c == '\x0b' || c == '\x0c'

/-- Model of Python `s.strip()`. -/
def pyStrip (s : String) : String :=
  String.mk (((s.toList.dropWhile isPySpace).reverse.dropWhile isPySpace).reverse)

/-- Characters before the first colon of a name. -/
def takeToColon : List Char → List Char
  | [] => []
  | c :: cs => if c = ':' then [] else c :: takeToColon cs

/-- Model of Python `name.split(":")[0]`: the segment before the first
colon, or the whole string when no colon occurs. -/
def preColon (name : String) : String := String.mk (takeToColon name.toList)

/-- Python `a or b` on strings (the empty string is falsy). -/
def pyOrStr (a b : String) : String := if a = "" then b else a

/-- Model of Python `sep.join(items)`. -/
def joinWith (sep : String) : List String → String
  | [] => ""
  | [s] => s
  | s :: ss => s ++ sep ++ joinWith sep ss

/-- Embedding of the matching logic of `check_ollama_model` against a tag
listing: `model_name in models or any(model_name.split(":")[0] in m for m
in models)`. The transport around it (which returns False on any request
failure) is not part of the matching claim. -/
def check_ollama_model (model_name : String) (models : List String) : Bool :=
  models.contains model_name || models.any (fun m => strHasSub (preColon model_name) m)

/- Station records are JSON objects; their scalar field values. -/

/-- JSON scalar values as they appear in station-record fields. -/
inductive JVal where
  | jnull
  | jbool (b : Bool)
  | jnum (q : ℚ)
  | jstr (s : String)
deriving DecidableEq

/-- A station record: a JSON object, as a key/value association list. -/
abbrev StationRecord := List (String × JVal)

/-- Model of `r.get(k)` / guarded `r[k]` on a record. -/
def rget (r : StationRecord) (k : String) : Option JVal := r.lookup k

/-- Digit test used by the decimal parser. -/
def isDigitCh (c : Char) : Bool := decide ('0' ≤ c) && decide (c ≤ '9')

/-- Consume leading digits, returning accumulated value, digit count and
the rest of the input. -/
def readDigits : List Char → Nat × Nat → (Nat × Nat) × List Char
  | [], acc => (acc, [])
  | c :: cs, (v, n) =>
      if isDigitCh c then readDigits cs (v * 10 + (c.toNat - 48), n + 1)
      else ((v, n), c :: cs)

/-- Parse an unsigned decimal literal (digits with an optional decimal
point, at least one digit overall). -/
def parseUnsigned (cs : List Char) : Option ℚ :=
  match readDigits cs (0, 0) with
  | ((iv, ic), rest) =>
    match rest with
    | [] => if ic = 0 then none else some (iv : ℚ)
    | c :: rest2 =>
      if c = '.' then
        match readDigits rest2 (0, 0) with
        | ((fv, fc), rest3) =>
          if rest3.isEmpty then
            if ic + fc = 0 then none
            else some ((iv : ℚ) + (fv : ℚ) / (10 : ℚ) ^ fc)
          else none
      else none

/-- Model of Python `float(s)` on plain decimal literals: optional sign,
digits with an optional decimal point. Exponents, infinities and
underscore separators are outside the model. -/
def parseFloat (s : String) : Option ℚ :=
  match s.toList with
  | '-' :: cs => (parseUnsigned cs).map (fun q => -q)
  | '+' :: cs => parseUnsigned cs
  | cs => parseUnsigned cs

/-- Model of Python `float(x)` on a JSON value: numbers convert, booleans
convert, numeric strings parse; None and non-numeric strings raise, which
`_stats` swallows, so they map to `none` here. -/
def pyFloat : JVal → Option ℚ
  | .jnum q => some q
  | .jbool b => some (if b then 1 else 0)
  | .jstr s => parseFloat s
  | .jnull => none

/-- The numeric-valid subsequence of one field across the records: the
`vals` list that `_stats` builds via `float(r[key])` with ValueError,
TypeError and KeyError silently skipped. -/
def fieldVals (records : List StationRecord) (key : String) : List ℚ :=
  records.filterMap (fun r => (rget r key).bind pyFloat)

/-- Last element of `v :: vs` (Python `vals[-1]` on a nonempty list). -/
def lastVal (v : ℚ) : List ℚ → ℚ
  | [] => v
  | w :: ws => lastVal w ws

/-- The four per-field statistics computed by `_stats`. -/
structure FieldStats where
  mn : ℚ
  mx : ℚ
  avg : ℚ
  trend : ℚ
deriving DecidableEq

/-- Numeric core of `_stats`: min, max, arithmetic mean and first-to-last
change of the valid values; `none` when no valid value exists. -/
def statsCore : List ℚ → Option FieldStats
  | [] => none
  | v :: vs =>
      some { mn := vs.foldl min v, mx := vs.foldl max v,
             avg := (v :: vs).sum / ((v :: vs).length : ℚ),
             trend := lastVal v vs - v }

/- Number formatting used in the summary lines. Python formats the binary
float; the model rounds the exact rational, which agrees on the values the
claims quantify over and is irrelevant to every claim settled below. -/

/-- Round to the nearest integer, ties to even (the rounding of Python
round() and of the "%.4f" format, applied to the exact rational). -/
def roundHalfEven (q : ℚ) : ℤ :=
  let fl := Rat.floor q
  let frac := q - (fl : ℚ)
  if frac < 1 / 2 then fl
  else if 1 / 2 < frac then fl + 1
  else if fl % 2 = 0 then fl else fl + 1

/-- Left-pad a number to four digits. -/
def padTo4 (n : Nat) : String :=
  String.mk (List.replicate (4 - (toString n).length) '0') ++ toString n

/-- Model of the Python format `f"{q:.4f}"`. -/
def fmt4 (q : ℚ) : String :=
  let n := roundHalfEven (q * 10000)
  (if q < 0 then "-" else "") ++ toString (n.natAbs / 10000) ++ "." ++ padTo4 (n.natAbs % 10000)

/-- Model of the Python format `f"{q:+.4f}"` (explicit sign). -/
def fmtSigned4 (q : ℚ) : String :=
  let n := roundHalfEven (q * 10000)
  (if q < 0 then "-" else "+") ++ toString (n.natAbs / 10000) ++ "." ++ padTo4 (n.natAbs % 10000)

/-- Model of Python `round(x, 1)` on the exact rational. -/
def round1 (q : ℚ) : ℚ := (roundHalfEven (q * 10) : ℚ) / 10

/-- The statistics line `_stats` formats from its computed values. -/
def formatStats (label : String) (fs : FieldStats) : String :=
  label ++ ": min=" ++ fmt4 fs.mn ++ ", max=" ++ fmt4 fs.mx ++
    ", mean=" ++ fmt4 fs.avg ++ ", total_change=" ++ fmtSigned4 fs.trend

/-- Embedding of the closure `_stats` of `_summarize_station_data`: the
formatted statistics line for one field, `none` when the field has no
numeric-valid value in any record. -/
def _stats (records : List StationRecord) (key label : String) : Option String :=
  (statsCore (fieldVals records key)).map (formatStats label)

/-- The LANDMOS_FIELD_LABELS table. -/
def LANDMOS_FIELD_LABELS : List (String × String) :=
  [("de", "East displacement (m)"), ("dn", "North displacement (m)"),
   ("dh", "Height displacement (m)"), ("sde", "East displacement S.D. (m)"),
   ("sdn", "North displacement S.D. (m)"), ("sdh", "Height displacement S.D. (m)"),
   ("pdop", "PDOP"), ("no_satellite", "Satellite count"),
   ("lat", "Latitude"), ("lng", "Longitude")]

/-- The DISPLACEMENT_KEYS list. -/
def DISPLACEMENT_KEYS : List String := ["de", "dn", "dh"]

/-- The QUALITY_KEYS list. -/
def QUALITY_KEYS : List String := ["sde", "sdn", "sdh", "pdop", "no_satellite"]

/-- Model of `LANDMOS_FIELD_LABELS.get(k, k)`. -/
def labelOf (k : String) : String := (LANDMOS_FIELD_LABELS.lookup k).getD k

/-- Python truthiness of an optional JSON value (absent, None, 0, the
empty string and False are falsy). -/
def jTruthy : Option JVal → Bool
  | none => false
  | some .jnull => false
  | some (.jbool b) => b
  | some (.jnum q) => decide (q ≠ 0)
  | some (.jstr s) => decide (s ≠ "")

/-- Rendering model of Python `str()` on a JSON value. The shortest-digit
float repr is not reproduced (numbers render as integers with a ".0" tail
or at four decimals); no claim depends on this rendering. -/
def pyStr : JVal → String
  | .jnull => "None"
  | .jbool b => if b then "True" else "False"
  | .jstr s => s
  | .jnum q => if q.den = 1 then toString q.num ++ ".0" else fmt4 q

/-- Model of `r.get("timestamp", "?")` as rendered into the f-string. -/
def tsOf (r : StationRecord) : String :=
  match rget r "timestamp" with
  | some v => pyStr v
  | none => "?"

/-- Render an optional JSON value as Python str() renders it in an
f-string (absent keys of dict.get render as None). -/
def jStrOpt : Option JVal → String
  | some v => pyStr v
  | none => "None"

/-- The sample_keys list of the summarizer. -/
def sample_keys : List String := "timestamp" :: DISPLACEMENT_KEYS

/-- One sample row: the join of `f"{k}={r.get(k, '')}"` over the sample
keys present in the record. -/
def sampleRow (r : StationRecord) : String :=
  joinWith ", " ((sample_keys.filter (fun k => (rget r k).isSome)).map
    (fun k => k ++ "=" ++ (match rget r k with | some v => pyStr v | none => "")))

/-- The `if stat:` filter on an optional string (None and the empty
string are falsy). -/
def keepTruthy : Option String → Option String
  | none => none
  | some s => if s = "" then none else some s

/-- The statistics lines appended for a key list: one line per key whose
`_stats` result is truthy. -/
def statSection (records : List StationRecord) (keys : List String) : List String :=
  keys.filterMap (fun k => keepTruthy (_stats records k (labelOf k)))

/-- The lines list built by `_summarize_station_data` for a nonempty
record list, in the order the source appends them. -/
def summaryLines (records : List StationRecord) (stat_code : String) : List String :=
  let r0 := records.headD []
  let rN := records.getLastD []
  ["Station: " ++ stat_code,
   "Total data points: " ++ toString records.length,
   "Time range: " ++ tsOf r0 ++ " to " ++ tsOf rN] ++
  (if jTruthy (rget r0 "lat") && jTruthy (rget r0 "lng") then
     ["Location: lat=" ++ jStrOpt (rget r0 "lat") ++ ", lng=" ++ jStrOpt (rget r0 "lng")]
   else []) ++
  ["\n--- Displacement Statistics ---"] ++ statSection records DISPLACEMENT_KEYS ++
  ["\n--- Data Quality ---"] ++ statSection records QUALITY_KEYS ++
  ["\nFirst 3 records (timestamp, de, dn, dh):"] ++
  (records.take 3).map (fun r => "  " ++ sampleRow r) ++
  (if 6 < records.length then
     ["Last 3 records:"] ++ (records.drop (records.length - 3)).map (fun r => "  " ++ sampleRow r)
   else [])

/-- Duck-typed station payload: a plain list of records or a wrapper
object whose "records" / "data" keys are typed as optional record lists
(an absent key and a null value are both `none`, indistinguishable
through dict.get). -/
inductive StationData where
  | asList (records : List StationRecord)
  | asObj (recordsKey : Option (List StationRecord)) (dataKey : Option (List StationRecord))

/-- Python `a or b` on record lists (the empty list is falsy). -/
def pyOrList (a b : List StationRecord) : List StationRecord :=
  if a.isEmpty then b else a

/-- Model of the record extraction: the payload itself when it is a list,
else `station_data.get("records") or station_data.get("data") or []`. -/
def extractedRecords : StationData → List StationRecord
  | .asList rs => rs
  | .asObj recordsKey dataKey =>
      pyOrList (recordsKey.getD []) (pyOrList (dataKey.getD []) [])

/-- The notice returned when no records are present. -/
def noDataNotice (stat_code : String) : String :=
  "Station: " ++ stat_code ++ "\nNo data records found."

/-- Embedding of `_summarize_station_data`. -/
def _summarize_station_data (station_data : StationData) (stat_code : String) : String :=
  let records := extractedRecords station_data
  if records.isEmpty then noDataNotice stat_code
  else joinWith "\n" (summaryLines records stat_code)

/- Endpoint results and outbound-call outcomes. A handler is embedded as
a pure function of its request together with the outcome the single
outbound HTTP attempt would have; raising HTTPException(status, detail)
is the httpError result. -/

/-- Outcome of a request handler: a response body, or an
HTTPException(status, detail). -/
inductive EndpointResult (α : Type) where
  | ok (body : α)
  | httpError (status : Nat) (detail : String)
deriving DecidableEq

/-- Outcome of the single outbound httpx call of `get_station_data`: a
response with its status code, raw text and parsed JSON body, or a
connection failure, or a timeout. -/
inductive FetchOutcome (β : Type) where
  | httpResponse (status : Nat) (text : String) (body : β)
  | connectFailure
  | timedOut
deriving DecidableEq

/-- Embedding of GET /api/station/data (`get_station_data`): a 200
response is passed through; a non-200 response raises with that status; a
connection failure raises 502 and a timeout 504. -/
def get_station_data {β : Type} (o : FetchOutcome β) : EndpointResult β :=
  match o with
  | .httpResponse status text body =>
      if status = 200 then .ok body
      else
        .httpError status ("LandMOS API error: " ++
          (if text = "" then "status " ++ toString status else strTake text 300))
  | .connectFailure => .httpError 502 "Cannot connect to LandMOS API server."
  | .timedOut => .httpError 504 "LandMOS API request timed out."

/-- Parsed JSON body of an Ollama /api/generate response: its optional
"response" and "error" string fields. -/
structure OllamaBody where
  responseField : Option String
  errorField : Option String
deriving DecidableEq

/-- Outcome of the outbound call of `query_ollama_vision` /
`query_ollama_text`: a response (status, parsed body when the body
parses, raw text), a timeout, a connection failure, or another
exception with its message. -/
inductive OllamaOutcome where
  | httpResponse (status : Nat) (body : Option OllamaBody) (text : String)
  | timedOut
  | connectFailure
  | otherExc (msg : String)
deriving DecidableEq

/-- Embedding of `_parse_ollama_error`: the "error" field of the parsed
body when present, else the stripped response text truncated to 300
characters, else a status fallback. -/
def _parse_ollama_error (status : Nat) (body : Option OllamaBody) (text : String) : String :=
  match (match body with | some b => b.errorField | none => none) with
  | some e => e
  | none =>
      let t := pyStrip text
      if t = "" then "status " ++ toString status else strTake t 300

/-- Embedding of `query_ollama_vision`: the returned string as a function
of the outbound call's outcome. Payload construction is not modelled. A
200 response whose body fails to parse raises inside resp.json() and is
caught by the generic handler; the exception's text is not modelled
beyond its "Error: " marker. -/
def query_ollama_vision (o : OllamaOutcome) : String :=
  match o with
  | .httpResponse status body text =>
      if status = 200 then
        match body with
        | some b =>
            match b.responseField with
            | some r => r
            | none => "No response generated."
        | none => "Error: unparseable response body"
      else "Error: " ++ _parse_ollama_error status body text
  | .timedOut => "Error: Request to Ollama timed out. The model may still be loading."
  | .connectFailure => "Error: Cannot connect to Ollama. Is the Ollama service running?"
  | .otherExc msg => "Error: " ++ msg

/-- Embedding of `query_ollama_text`: the source duplicates the result
handling of the vision helper (only the payload and timeouts differ, and
those are not part of the pure model). -/
def query_ollama_text (o : OllamaOutcome) : String :=
  match o with
  | .httpResponse status body text =>
      if status = 200 then
        match body with
        | some b =>
            match b.responseField with
            | some r => r
            | none => "No response generated."
        | none => "Error: unparseable response body"
      else "Error: " ++ _parse_ollama_error status body text
  | .timedOut => "Error: Request to Ollama timed out. The model may still be loading."
  | .connectFailure => "Error: Cannot connect to Ollama. Is the Ollama service running?"
  | .otherExc msg => "Error: " ++ msg

/- The model-mode table. -/

/-- One entry of MODEL_MODES. -/
structure ModelMode where
  name : String
  description : String
  description_th : String
  vision_model : String
  text_model : String
  icon : String
  min_ram_gb : Nat
deriving DecidableEq

/-- The "moondream" mode entry. -/
def moondreamMode : ModelMode :=
  { name := "Moondream",
    description := "Moondream 1.8B — Lightweight vision model, low RAM (~2 GB)",
    description_th := "Moondream 1.8B — โมเดลวิทัศน์ขนาดเล็ก ใช้ RAM น้อย (~2 GB)",
    vision_model := "moondream", text_model := "llama3.2:1b",
    icon := "🌙", min_ram_gb := 3 }

/-- The "llava" mode entry. -/
def llavaMode : ModelMode :=
  { name := "LLaVA",
    description := "LLaVA 7B — Better accuracy, requires more RAM (~8 GB)",
    description_th := "LLaVA 7B — แม่นยำกว่า ต้องใช้ RAM มากกว่า (~8 GB)",
    vision_model := "llava:7b", text_model := "llama3.2:3b",
    icon := "🦙", min_ram_gb := 8 }

/-- The MODEL_MODES table. -/
def MODEL_MODES : List (String × ModelMode) :=
  [("moondream", moondreamMode), ("llava", llavaMode)]

/-- The DEFAULT_MODEL_MODE key. -/
def DEFAULT_MODEL_MODE : String := "moondream"

/-- Model of `MODEL_MODES[DEFAULT_MODEL_MODE]` (direct indexing; the key
is present, so the getD default is never reached). -/
def defaultMode : ModelMode := (MODEL_MODES.lookup DEFAULT_MODEL_MODE).getD moondreamMode

/-- Model of `MODEL_MODES.get(model_mode, MODEL_MODES[DEFAULT_MODEL_MODE])`. -/
def resolveMode (k : String) : ModelMode := (MODEL_MODES.lookup k).getD defaultMode

/- pathlib name and suffix, for the stored-file extension. -/

/-- The final path component (pathlib PurePath.name for plain names). -/
def pathNameAux : List Char → List Char → List Char
  | cur, [] => cur.reverse
  | cur, c :: cs => if c = '/' then pathNameAux [] cs else pathNameAux (c :: cur) cs

/-- Index of the last dot of a character list, if any. -/
def lastDotIdx (cs : List Char) : Option Nat :=
  (List.range cs.length).foldl (fun acc i => if cs.getD i ' ' = '.' then some i else acc) none

/-- Model of pathlib `Path(p).suffix`: name[i:] for i the index of the
last dot of the final component, when 0 < i < len(name) - 1, else the
empty string. -/
def pathSuffixOf (p : String) : String :=
  let nm := pathNameAux [] p.toList
  match lastDotIdx nm with
  | some i => if 0 < i ∧ i < nm.length - 1 then String.mk (nm.drop i) else ""
  | none => ""

/- The chart-analysis endpoint. -/

/-- The uploaded multipart file as the handler sees it: optional content
type, optional client file name, raw bytes. -/
structure UploadedFile where
  content_type : Option String
  filename : Option String
  content : List Nat
deriving DecidableEq

/-- The outbound side effects of analyze_chart, in program order. One
pullCheck stands for an ensure_model_pulled call (its availability check
plus the optional pull). -/
inductive Effect where
  | pullCheck (model : String)
  | fileSave (filename : String)
  | visionCall (model : String)
  | textCall (model : String)
deriving DecidableEq

/-- Oracle for the outbound calls of analyze_chart: the result
ensure_model_pulled would report per model name, and the strings the
vision and text inference calls would return. -/
structure ChartEnv where
  pullOk : String → Bool
  visionResult : String
  textResult : String

/-- The details map of an AnalysisResponse. -/
structure AnalysisDetails where
  vision_model : String
  text_model : String
  model_mode : String
  original_filename : Option String
  file_size_kb : ℚ
  language : String
deriving DecidableEq

/-- The AnalysisResponse record returned by POST /api/analyze. -/
structure AnalysisResponse where
  id : String
  filename : String
  description : String
  summary : String
  details : AnalysisDetails
  timestamp : String
  chart_url : String
deriving DecidableEq

/-- The content-type gate of analyze_chart: the request passes when the
content type is truthy and starts with "image/". -/
def contentTypeOk : Option String → Bool
  | none => false
  | some ct => decide (ct ≠ "") && strStartsWith ct "image/"

/-- Embedding of POST /api/analyze (`analyze_chart`): the result and the
ordered outbound effects, as a function of the request, the generated
chart id, the clock reading and the outbound-call oracle. -/
def analyze_chart (file : UploadedFile) (language model_mode chart_id now : String)
    (env : ChartEnv) : EndpointResult AnalysisResponse × List Effect :=
  let mode := resolveMode model_mode
  let active_vision_model := mode.vision_model
  let active_text_model := mode.text_model
  if contentTypeOk file.content_type then
    if env.pullOk active_vision_model then
      let ext := pyOrStr (pathSuffixOf (pyOrStr (file.filename.getD "") "chart.png")) ".png"
      let filename := "chart_" ++ chart_id ++ ext
      let description := env.visionResult
      if strStartsWith description "Error:" then
        (.httpError 503 description,
         [.pullCheck active_vision_model, .pullCheck active_text_model,
          .fileSave filename, .visionCall active_vision_model])
      else
        let summary0 := env.textResult
        let summary :=
          if strStartsWith summary0 "Error:" then
            if 300 < description.length then strTake description 300 ++ "..." else description
          else summary0
        (.ok { id := chart_id, filename := filename, description := description,
               summary := summary,
               details := { vision_model := active_vision_model,
                            text_model := active_text_model,
                            model_mode := model_mode,
                            original_filename := file.filename,
                            file_size_kb := round1 ((file.content.length : ℚ) / 1024),
                            language := language },
               timestamp := now,
               chart_url := "/api/charts/" ++ filename },
         [.pullCheck active_vision_model, .pullCheck active_text_model,
          .fileSave filename, .visionCall active_vision_model,
          .textCall active_text_model])
    else
      (.httpError 503 ("Vision model '" ++ active_vision_model ++
         "' is not available and could not be pulled. Please check that Ollama is running and has enough resources."),
       [.pullCheck active_vision_model])
  else
    (.httpError 400 "Only image files are accepted.", [])

/- Concrete fixtures used by the witness theorems. -/

/-- Fixture records: three records whose "de" field is numeric, invalid,
numeric, and whose other fields vary independently. -/
def recsW : List StationRecord :=
  [[("timestamp", JVal.jstr "2024-01-01"), ("de", JVal.jnum 1), ("dn", JVal.jnull)],
   [("timestamp", JVal.jstr "2024-01-02"), ("de", JVal.jstr "oops"), ("dn", JVal.jnum 5)],
   [("timestamp", JVal.jstr "2024-01-03"), ("de", JVal.jnum 4)]]

/-- Fixture upload with an image content type. -/
def imageFileW : UploadedFile :=
  { content_type := some "image/png", filename := some "c.png", content := [1, 2, 3] }

/-- Fixture upload with a non-image content type. -/
def badFileW : UploadedFile :=
  { content_type := some "text/plain", filename := some "c.txt", content := [1] }

/-- Fixture oracle whose vision call fails with the error marker. -/
def envVisionErrW : ChartEnv :=
  { pullOk := fun _ => true, visionResult := "Error: boom", textResult := "fine summary" }

/-- Fixture oracle whose vision call succeeds and text call fails. -/
def envTextErrW : ChartEnv :=
  { pullOk := fun _ => true, visionResult := "a fine description",
    textResult := "Error: summary failed" }

/-- Fixture oracle with both calls succeeding. -/
def envOkW : ChartEnv :=
  { pullOk := fun _ => true, visionResult := "desc", textResult := "sum" }

/- Helper lemmas shared by the claim theorems. -/

/-- A formatted statistics line is never the empty string, so the `if
stat:` truthiness test of the summarizer agrees with presence. -/
theorem formatStats_ne_empty (label : String) (fs : FieldStats) :
    formatStats label fs ≠ "" := by
  intro h
  have hlen := congrArg String.length h
  have h6 : (": min=" : String).length = 6 := rfl
  have h0 : ("" : String).length = 0 := rfl
  simp only [formatStats, String.length_append] at hlen
  omega

/-- Every string `_stats` returns is nonempty. -/
theorem stats_result_ne_empty (records : List StationRecord) (key label s : String)
    (h : _stats records key label = some s) : s ≠ "" := by
  simp only [_stats, Option.map_eq_some'] at h
  obtain ⟨fs, _, hfb⟩ := h
  rw [← hfb]
  exact formatStats_ne_empty label fs

/-- A truthy statistics line of a listed key is a member of the section
the summarizer appends for that key list. -/
theorem mem_statSection_of (records : List StationRecord) (keys : List String)
    (k s : String) (hk : k ∈ keys) (hs : _stats records k (labelOf k) = some s)
    (hne : s ≠ "") : s ∈ statSection records keys := by
  simp only [statSection, List.mem_filterMap]
  exact ⟨k, hk, by rw [hs]; simp [keepTruthy, hne]⟩

/- Claim theorems. -/

/-- Claim C1, counterexample: for the colon-free name "llava" and the
listing ["llava:7b"], the availability check returns true although the
name is not an exact entry of the listing, refuting the claim's
exact-match-only rule for names without a colon. -/
theorem check_ollama_model_colonfree_cex :
    check_ollama_model "llava" ["llava:7b"] = true ∧
    ("llava" ∈ (["llava:7b"] : List String) → False) ∧
    ':' ∉ "llava".toList := by
  decide

/-- Claim C1 (amended): for every model name, colon-qualified or not, the
availability check returns true exactly when the name is an exact entry
of the listing or some listed entry contains the name's pre-colon segment
(the whole name when it has no colon) as a substring. -/
theorem check_ollama_model_matching (name : String) (models : List String) :
    check_ollama_model name models = true ↔
      (name ∈ models ∨ ∃ m ∈ models, List.IsInfix (preColon name).toList m.toList) := by
  simp [check_ollama_model, strHasSub, List.any_eq_true]

/-- Claim C2, counterexample: an upstream 404 response makes GET
/api/station/data fail with status 404 — the upstream status is relayed —
not with 502 as the claim states. -/
theorem get_station_data_non200_cex :
    get_station_data (FetchOutcome.httpResponse 404 "not found" "body") =
      EndpointResult.httpError 404 "LandMOS API error: not found" ∧
    (404 : Nat) ≠ 502 := by
  decide

/-- Claim C2 (amended): GET /api/station/data passes a 200 body through
unmodified, maps a connect failure to 502 and a timeout to 504, and
relays an upstream non-200 status as the endpoint's own failure status,
with the upstream text truncated to 300 characters as detail. -/
theorem get_station_data_status_mapping {β : Type} (status : Nat) (text : String) (body : β) :
    (get_station_data (FetchOutcome.httpResponse 200 text body) = EndpointResult.ok body) ∧
    (get_station_data (FetchOutcome.connectFailure : FetchOutcome β) =
       EndpointResult.httpError 502 "Cannot connect to LandMOS API server.") ∧
    (get_station_data (FetchOutcome.timedOut : FetchOutcome β) =
       EndpointResult.httpError 504 "LandMOS API request timed out.") ∧
    (status ≠ 200 →
       get_station_data (FetchOutcome.httpResponse status text body) =
         EndpointResult.httpError status ("LandMOS API error: " ++
           (if text = "" then "status " ++ toString status else strTake text 300))) := by
  refine ⟨rfl, rfl, rfl, fun h => ?_⟩
  simp [get_station_data, h]

/-- Witness for the amended C2 theorem, at upstream status 500. -/
theorem get_station_data_status_mapping_witness :
    get_station_data (FetchOutcome.httpResponse 500 "x" "b") =
      EndpointResult.httpError 500 ("LandMOS API error: " ++
        (if ("x" : String) = "" then "status " ++ toString 500 else strTake "x" 300)) :=
  (get_station_data_status_mapping 500 "x" "b").2.2.2 (by decide)

/-- Claim C6 (confirmed): on an empty record list, a wrapper without
"records" and "data" keys, or a wrapper whose record list is empty, the
summarizer returns exactly the no-data notice (the embedding is a total
function, so no exception is possible). -/
theorem summarize_no_data (stat_code : String) :
    _summarize_station_data (StationData.asList []) stat_code = noDataNotice stat_code ∧
    _summarize_station_data (StationData.asObj none none) stat_code = noDataNotice stat_code ∧
    _summarize_station_data (StationData.asObj (some []) none) stat_code = noDataNotice stat_code ∧
    _summarize_station_data (StationData.asObj none (some [])) stat_code = noDataNotice stat_code ∧
    _summarize_station_data (StationData.asObj (some []) (some [])) stat_code =
      noDataNotice stat_code :=
  ⟨rfl, rfl, rfl, rfl, rfl⟩

/-- Claim C9 (confirmed): a 200 inference response whose JSON body lacks
a "response" key makes both query helpers return the fixed string "No
response generated.", which does not carry the "Error:" marker, so the
endpoints treat the call as a successful inference. -/
theorem ollama_missing_response_key (e : Option String) (text : String) :
    query_ollama_vision (OllamaOutcome.httpResponse 200
        (some { responseField := none, errorField := e }) text) = "No response generated." ∧
    query_ollama_text (OllamaOutcome.httpResponse 200
        (some { responseField := none, errorField := e }) text) = "No response generated." ∧
    strStartsWith "No response generated." "Error:" = false :=
  ⟨rfl, rfl, by decide⟩

/-- Claim C3 (confirmed): the total_change computed by the summarizer's
`_stats` for a field equals the last minus the first value of that
field's numeric-valid filtered subsequence, and that subsequence depends
only on the field's own values across the records, never on other
fields' validity. -/
theorem stats_total_change (records : List StationRecord) (key : String)
    (v : ℚ) (vs : List ℚ) (h : fieldVals records key = v :: vs) :
    (∃ fs, statsCore (fieldVals records key) = some fs ∧
       _stats records key (labelOf key) = some (formatStats (labelOf key) fs) ∧
       fs.trend = lastVal v vs - v) ∧
    (∀ records' : List StationRecord,
       records.map (fun r => rget r key) = records'.map (fun r => rget r key) →
       fieldVals records' key = v :: vs) := by
  constructor
  · rw [h]
    refine ⟨_, rfl, ?_, rfl⟩
    simp only [_stats, h]
    rfl
  · intro records' hmap
    have e : ∀ rs : List StationRecord, fieldVals rs key =
        (rs.map (fun r => rget r key)).filterMap (fun o => o.bind pyFloat) := by
      intro rs
      rw [List.filterMap_map]
      rfl
    rw [e records', ← hmap, ← e records, h]

/-- Witness for C3: on the fixture records the "de" field's valid values
are [1, 4], so total_change is the last minus the first of that
subsequence. -/
theorem stats_total_change_witness :
    ∃ fs, statsCore (fieldVals recsW "de") = some fs ∧
      _stats recsW "de" (labelOf "de") = some (formatStats (labelOf "de") fs) ∧
      fs.trend = lastVal 1 [4] - 1 :=
  (stats_total_change recsW "de" 1 [4] (by decide)).1

/-- Claim C7 (confirmed): a field with no numeric-valid value in any
record gets no statistics line at all from `_stats`, while a listed field
with at least one numeric-valid value gets its line, and that line
appears in the summarizer's output lines. -/
theorem summary_stat_line_omission (records : List StationRecord)
    (stat_code k : String) (hk : k ∈ DISPLACEMENT_KEYS ∨ k ∈ QUALITY_KEYS) :
    (fieldVals records k = [] → _stats records k (labelOf k) = none) ∧
    (fieldVals records k ≠ [] →
      ∃ s, _stats records k (labelOf k) = some s ∧ s ∈ summaryLines records stat_code) := by
  constructor
  · intro h
    simp [_stats, h, statsCore]
  · intro h
    obtain ⟨v, vs, hv⟩ := List.exists_cons_of_ne_nil h
    have hs : _stats records k (labelOf k) =
        some (formatStats (labelOf k)
          { mn := vs.foldl min v, mx := vs.foldl max v,
            avg := (v :: vs).sum / ((v :: vs).length : ℚ),
            trend := lastVal v vs - v }) := by
      simp only [_stats, hv]
      rfl
    obtain ⟨s, hs⟩ : ∃ s, _stats records k (labelOf k) = some s := ⟨_, hs⟩
    have hne : s ≠ "" := stats_result_ne_empty records k (labelOf k) s hs
    refine ⟨s, hs, ?_⟩
    have hmem : s ∈ statSection records DISPLACEMENT_KEYS ∨
        s ∈ statSection records QUALITY_KEYS := by
      rcases hk with hk | hk
      · exact Or.inl (mem_statSection_of records DISPLACEMENT_KEYS k s hk hs hne)
      · exact Or.inr (mem_statSection_of records QUALITY_KEYS k s hk hs hne)
    simp only [summaryLines, List.mem_append]
    tauto

/-- Witness for C7: on the fixture records the "de" field has valid
values, so its statistics line is present among the summary lines. -/
theorem summary_stat_line_omission_witness :
    ∃ s, _stats recsW "de" (labelOf "de") = some s ∧ s ∈ summaryLines recsW "ST01" :=
  (summary_stat_line_omission recsW "ST01" "de" (Or.inl (by decide))).2 (by decide)

/-- Claim C4 (confirmed): in the chart analysis flow, when the vision
result carries no error marker but the lay-summary text result does, the
endpoint still succeeds and the returned summary is the first 300
characters of the description followed by an ellipsis when the
description exceeds 300 characters, else the full description. -/
theorem analyze_chart_summary_fallback (file : UploadedFile)
    (language model_mode chart_id now : String) (env : ChartEnv)
    (hct : contentTypeOk file.content_type = true)
    (hpull : env.pullOk (resolveMode model_mode).vision_model = true)
    (hvis : strStartsWith env.visionResult "Error:" = false)
    (htxt : strStartsWith env.textResult "Error:" = true) :
    ∃ resp, (analyze_chart file language model_mode chart_id now env).1 =
        EndpointResult.ok resp ∧
      resp.description = env.visionResult ∧
      resp.summary = (if 300 < env.visionResult.length
                      then strTake env.visionResult 300 ++ "..."
                      else env.visionResult) := by
  simp [analyze_chart, hct, hpull, hvis, htxt]

/-- Witness for C4: a concrete request whose text-summary call fails
while the vision call succeeds still returns success, with the fallback
summary. -/
theorem analyze_chart_summary_fallback_witness :
    ∃ resp, (analyze_chart imageFileW "en" "llava" "abc12345" "t0" envTextErrW).1 =
        EndpointResult.ok resp ∧
      resp.description = envTextErrW.visionResult ∧
      resp.summary = (if 300 < envTextErrW.visionResult.length
                      then strTake envTextErrW.visionResult 300 ++ "..."
                      else envTextErrW.visionResult) :=
  analyze_chart_summary_fallback imageFileW "en" "llava" "abc12345" "t0" envTextErrW
    (by decide) rfl (by decide) (by decide)

/-- Claim C5 (confirmed): when the vision result carries the "Error:"
marker, the chart analysis endpoint fails with 503 carrying that string
as detail, and no text-inference call appears among its effects. -/
theorem analyze_chart_vision_error (file : UploadedFile)
    (language model_mode chart_id now : String) (env : ChartEnv)
    (hct : contentTypeOk file.content_type = true)
    (hpull : env.pullOk (resolveMode model_mode).vision_model = true)
    (hvis : strStartsWith env.visionResult "Error:" = true) :
    (analyze_chart file language model_mode chart_id now env).1 =
      EndpointResult.httpError 503 env.visionResult ∧
    ∀ m, Effect.textCall m ∉ (analyze_chart file language model_mode chart_id now env).2 := by
  constructor
  · simp [analyze_chart, hct, hpull, hvis]
  · intro m
    simp [analyze_chart, hct, hpull, hvis]

/-- Witness for C5: a concrete request whose vision call fails with the
marker yields 503 with that exact string and no text call. -/
theorem analyze_chart_vision_error_witness :
    (analyze_chart imageFileW "en" "llava" "abc12345" "t0" envVisionErrW).1 =
      EndpointResult.httpError 503 envVisionErrW.visionResult ∧
    Effect.textCall "llama3.2:3b" ∉
      (analyze_chart imageFileW "en" "llava" "abc12345" "t0" envVisionErrW).2 :=
  ⟨(analyze_chart_vision_error imageFileW "en" "llava" "abc12345" "t0" envVisionErrW
      (by decide) rfl (by decide)).1,
   (analyze_chart_vision_error imageFileW "en" "llava" "abc12345" "t0" envVisionErrW
      (by decide) rfl (by decide)).2 "llama3.2:3b"⟩

/-- Claim C8 (confirmed): a missing content type or one not starting
with "image/" makes the chart analysis endpoint fail with 400 and an
empty effect list — no availability check, no pull, no inference and no
file save happen. -/
theorem analyze_chart_rejects_non_image (file : UploadedFile)
    (language model_mode chart_id now : String) (env : ChartEnv)
    (hct : ∀ ct, file.content_type = some ct → strStartsWith ct "image/" = false) :
    analyze_chart file language model_mode chart_id now env =
      (EndpointResult.httpError 400 "Only image files are accepted.", []) := by
  have hbad : contentTypeOk file.content_type = false := by
    cases hft : file.content_type with
    | none => rfl
    | some ct => simp [contentTypeOk, hct ct hft]
  simp [analyze_chart, hbad]

/-- Witness for C8: a text/plain upload is rejected with 400 and no
effects. -/
theorem analyze_chart_rejects_non_image_witness :
    analyze_chart badFileW "en" "llava" "abc12345" "t0" envOkW =
      (EndpointResult.httpError 400 "Only image files are accepted.", []) :=
  analyze_chart_rejects_non_image badFileW "en" "llava" "abc12345" "t0" envOkW
    (fun ct h => by
      have h3 : (some "text/plain" : Option String) = some ct := h
      injection h3 with h2
      subst h2
      decide)

/-- Claim C10 (confirmed): an unrecognized model_mode key makes the
pipeline run with the default mode's vision and text models, while the
returned details.model_mode reports the requested key verbatim. -/
theorem analyze_chart_unknown_mode (file : UploadedFile)
    (language model_mode chart_id now : String) (env : ChartEnv)
    (hmode : MODEL_MODES.lookup model_mode = none)
    (hct : contentTypeOk file.content_type = true)
    (hpull : env.pullOk "moondream" = true)
    (hvis : strStartsWith env.visionResult "Error:" = false) :
    ∃ resp, (analyze_chart file language model_mode chart_id now env).1 =
        EndpointResult.ok resp ∧
      resp.details.vision_model = "moondream" ∧
      resp.details.text_model = "llama3.2:1b" ∧
      resp.details.model_mode = model_mode ∧
      Effect.visionCall "moondream" ∈
        (analyze_chart file language model_mode chart_id now env).2 ∧
      Effect.textCall "llama3.2:1b" ∈
        (analyze_chart file language model_mode chart_id now env).2 := by
  have hres : resolveMode model_mode = moondreamMode := by
    simp only [resolveMode, hmode, Option.getD_none]
    decide
  simp [analyze_chart, hct, hres, hpull, hvis, moondreamMode]

/-- Witness for C10: the unrecognized key "turbo-mode" runs the default
moondream mode but is reported verbatim in the details. -/
theorem analyze_chart_unknown_mode_witness :
    ∃ resp, (analyze_chart imageFileW "en" "turbo-mode" "abc12345" "t0" envOkW).1 =
        EndpointResult.ok resp ∧
      resp.details.vision_model = "moondream" ∧
      resp.details.text_model = "llama3.2:1b" ∧
      resp.details.model_mode = "turbo-mode" ∧
      Effect.visionCall "moondream" ∈
        (analyze_chart imageFileW "en" "turbo-mode" "abc12345" "t0" envOkW).2 ∧
      Effect.textCall "llama3.2:1b" ∈
        (analyze_chart imageFileW "en" "turbo-mode" "abc12345" "t0" envOkW).2 :=
  analyze_chart_unknown_mode imageFileW "en" "turbo-mode" "abc12345" "t0" envOkW
    (by decide) (by decide) rfl (by decide)

end LandMOS
